import Mathlib

/-!
# Verification of the TUNAX Tax & Penalty Calculation Engine

Shallow embedding of `backend/utils/calculator.py` (class `TaxCalculator`).
Monetary values are modelled as rationals (`ℚ`); Python's `round(x, d)`
(decimal round-half-to-even) is modelled by `pyRound`.  Python `None` /
missing attributes are modelled with `Option`; a Python `dict` result is
modelled by the record `TaxDict` whose fields are `Option`-typed ("key
absent" = `none`).  Exceptions escaping a calculator are modelled by the
`Except.error` constructor.

The repository ships no `tariffs_2025.yaml`, so `_load_config` falls back to
the embedded defaults; in particular `rounding.currency_decimals = 3` for
both the TIB and TTNB sections, which is why every `_round` call below is
`pyRound · 3`.
-/

/-- Python's `str.lower()` (per-character lowering; all strings the engine
compares are ASCII). -/
def pyLower (s : String) : String := ⟨s.data.map Char.toLower⟩

/-- Python's `str.strip()`: drop leading and trailing whitespace. -/
def pyStrip (s : String) : String :=
  ⟨((s.data.dropWhile Char.isWhitespace).reverse.dropWhile Char.isWhitespace).reverse⟩

/-- Round-half-to-even to an integer, as Python's builtin `round` does. -/
def roundHalfEven (q : ℚ) : ℤ :=
  let f := ⌊q⌋
  let r := q - (f : ℚ)
  if r < 1/2 then f
  else if 1/2 < r then f + 1
  else if f % 2 = 0 then f else f + 1

/-- Python's `round(x, d)`: round-half-to-even at `d` decimal places.
Models `TaxCalculator._round(amount, section)` with the default
`currency_decimals = 3` used for both sections. -/
def pyRound (q : ℚ) (d : ℕ) : ℚ :=
  (roundHalfEven (q * 10 ^ d) : ℚ) / 10 ^ d

deriving instance DecidableEq for Except

/-- A Python dict returned by a calculator.  Each field is an `Option`;
`none` means the key is absent from the dict. -/
structure TaxDict where
  base_amount : Option ℚ := none
  rate_percent : Option ℚ := none
  tax_amount : Option ℚ := none
  total_amount : Option ℚ := none
  category : Option ℕ := none
  services_count : Option ℕ := none
  exemption_reason : Option (Option String) := none
  error : Option String := none
  valid_zones : Option (List String) := none
  message : Option String := none
  zone : Option String := none
  tariff_per_m2 : Option ℚ := none
  surface_m2 : Option ℚ := none
  deriving DecidableEq

/-- Snapshot of the attributes of a `Property` instance that
`calculate_tib` reads.  `surface_couverte = none` models an object on which
the attribute is absent or non-numeric (the bare access
`float(property_obj.surface_couverte)` then raises);
`reference_price_per_m2 = none` models `None`/absent (read via `getattr`
with default `None`). -/
structure PropertySnapshot where
  is_exempt : Bool := false
  exemption_reason : Option String := none
  surface_couverte : Option ℚ := none
  reference_price_per_m2 : Option ℚ := none
  commune_id : ℕ := 0
  delegation : Option String := none
  deriving DecidableEq

/-- Snapshot of the attributes of a `Land` instance that `calculate_ttnb`
reads.  `surface = none` models an absent attribute (read via `getattr`
with default `0`). -/
structure LandSnapshot where
  is_exempt : Bool := false
  exemption_reason : Option String := none
  urban_zone : Option String := none
  surface : Option ℚ := none
  deriving DecidableEq

/-- The `MunicipalServiceConfig` database table, abstracted to the two
counting queries `calculate_tib` issues against it:
`localityCount c l` = number of available services of commune `c` whose
`locality_name` matches `l` (the `ilike` match is internal to the query);
`communeCount c` = number of available services of commune `c` with
`locality_name IS NULL`. -/
structure ServiceStore where
  localityCount : ℕ → String → ℕ
  communeCount : ℕ → ℕ

/-- Step 4 of `calculate_tib`: count services for the property's locality,
falling back to the commune-wide (NULL-locality) count when the locality
yields zero. -/
def servicesCountOf (p : PropertySnapshot) (store : ServiceStore) : ℕ :=
  let locality_name := pyStrip (p.delegation.getD "")
  let locality_services :=
    if locality_name ≠ "" then store.localityCount p.commune_id locality_name else 0
  if locality_services = 0 then store.communeCount p.commune_id else locality_services

/-- Step 5 of `calculate_tib`: the hard-coded service-rate ladder. -/
def tibServiceRate (services_count : ℕ) : ℚ :=
  if services_count ≤ 2 then 8/100
  else if services_count ≤ 4 then 10/100
  else if services_count ≤ 6 then 12/100
  else 14/100

/-- Step 1 of `calculate_tib`: the surface category ladder. -/
def tibCategory (surface : ℚ) : ℕ :=
  if surface ≤ 100 then 1
  else if surface ≤ 200 then 2
  else if surface ≤ 400 then 3
  else 4

/-- `TaxCalculator.calculate_tib`.  `Except.error` models a Python
exception escaping the function (here: the unguarded attribute access
`float(property_obj.surface_couverte)`). -/
def calculate_tib (p : PropertySnapshot) (store : ServiceStore) :
    Except String TaxDict :=
  if p.is_exempt then
    .ok { base_amount := some 0, rate_percent := some 0, tax_amount := some 0,
          total_amount := some 0, exemption_reason := some p.exemption_reason }
  else
    match p.surface_couverte with
    | none => .error "AttributeError: surface_couverte"
    | some surface =>
      let category := tibCategory surface
      -- `if not ref_price_per_m2:` — falsy for None and for 0
      if p.reference_price_per_m2 = none ∨ p.reference_price_per_m2 = some 0 then
        .ok { error := some ("Reference price per m2 required for category "
                              ++ toString category) }
      else
        let ref_price := (p.reference_price_per_m2.getD 0)
        let assiette := (2/100 : ℚ) * (ref_price * surface)
        let services_count := servicesCountOf p store
        let service_rate := tibServiceRate services_count
        let tib_amount := assiette * service_rate
        .ok { base_amount := some (pyRound assiette 3),
              rate_percent := some (service_rate * 100),
              tax_amount := some (pyRound tib_amount 3),
              total_amount := some (pyRound tib_amount 3),
              category := some category,
              services_count := some services_count }

/-- The statutory TTNB zone tariff table (`ZONE_TARIFFS`), read with
`dict.get` (missing key ↦ `none`). -/
def zoneTariff (z : String) : Option ℚ :=
  if z = "haute_densite" then some (12/10)
  else if z = "densite_moyenne" then some (8/10)
  else if z = "faible_densite" then some (4/10)
  else if z = "peripherique" then some (2/10)
  else none

/-- The `valid_zones` list the TTNB error results carry. -/
def validZones : List String :=
  ["haute_densite", "densite_moyenne", "faible_densite", "peripherique"]

/-- `TaxCalculator.calculate_ttnb`.  Typed snapshots (`urban_zone :
Option String`, `surface : Option ℚ`) can never make it raise, hence every
branch is `Except.ok`. -/
def calculate_ttnb (l : LandSnapshot) : Except String TaxDict :=
  if l.is_exempt then
    .ok { base_amount := some 0, rate_percent := some 0, tax_amount := some 0,
          total_amount := some 0, exemption_reason := some l.exemption_reason }
  else
    -- `if not urban_zone:` — falsy for None and for the empty string
    if l.urban_zone = none ∨ l.urban_zone = some "" then
      .ok { error := some "Urban zone classification required",
            valid_zones := some validZones,
            message := some "TTNB cannot be calculated without urban zone classification per Decret 2017-396" }
    else
      let z := l.urban_zone.getD ""
      match zoneTariff (pyLower z) with
      | none =>
        .ok { error := some ("Invalid urban zone: " ++ z),
              valid_zones := some validZones }
      | some tariff =>
        let surface := l.surface.getD 0
        if surface ≤ 0 then
          .ok { error := some "Land surface must be greater than 0" }
        else
          let ttnb_amount := surface * tariff
          .ok { base_amount := some (pyRound ttnb_amount 3),
                rate_percent := some 0,
                tax_amount := some (pyRound ttnb_amount 3),
                total_amount := some (pyRound ttnb_amount 3),
                zone := some z,
                tariff_per_m2 := some tariff,
                surface_m2 := some surface }

/-- A `datetime` at day granularity (the penalty computation only reads
`year` and `month`, and compares against a Jan-1 midnight start, so the
time-of-day never matters). -/
structure PyDate where
  year : ℤ
  month : ℕ
  day : ℕ
  deriving DecidableEq

/-- Python `datetime` ordering (lexicographic). -/
def dateLt (a b : PyDate) : Bool :=
  a.year < b.year ∨
    (a.year = b.year ∧ (a.month < b.month ∨ (a.month = b.month ∧ a.day < b.day)))

/-- `TaxCalculator.compute_late_payment_penalty_for_year` with an explicit
`today` (the `section` argument only selects the rounding decimals, which
are 3 for both sections). -/
def compute_late_payment_penalty_for_year
    (tax_amount : ℚ) (tax_year : ℤ) (today : PyDate) : ℚ :=
  -- `if not tax_year:` — falsy for 0 (and None, not representable here)
  if tax_year = 0 then 0
  else
    let start_year := tax_year + 2
    if dateLt today ⟨start_year, 1, 1⟩ then 0
    else
      let months_elapsed := (today.year - start_year) * 12 + ((today.month : ℤ) - 1)
      let months_elapsed := max 0 months_elapsed
      pyRound (tax_amount * (125/10000) * (months_elapsed : ℚ)) 3

/-- A constant store used in concrete evaluations: every commune-wide
count is `n`, no locality-specific rows. -/
def constStore (n : ℕ) : ServiceStore :=
  { localityCount := fun _ _ => 0, communeCount := fun _ => n }

/-- C8: With `is_exempt` set, either calculator returns all monetary fields
exactly 0 and echoes the input's `exemption_reason`, regardless of every
other field (missing reference price, missing urban zone, …), and the
result carries no `error` key. -/
theorem exemption_short_circuit (p : PropertySnapshot) (store : ServiceStore)
    (l : LandSnapshot) (hp : p.is_exempt = true) (hl : l.is_exempt = true) :
    calculate_tib p store =
      .ok { base_amount := some 0, rate_percent := some 0, tax_amount := some 0,
            total_amount := some 0, exemption_reason := some p.exemption_reason } ∧
    calculate_ttnb l =
      .ok { base_amount := some 0, rate_percent := some 0, tax_amount := some 0,
            total_amount := some 0, exemption_reason := some l.exemption_reason } := by
  constructor
  · simp [calculate_tib, hp]
  · simp [calculate_ttnb, hl]

/-- Witness for C8: a concrete exempt property lacking a reference price and a
concrete exempt land lacking an urban zone both yield the all-zero result. -/
theorem exemption_short_circuit_witness :
    calculate_tib
        { is_exempt := true, exemption_reason := some "etablissement public" }
        (constStore 9) =
      .ok { base_amount := some 0, rate_percent := some 0, tax_amount := some 0,
            total_amount := some 0,
            exemption_reason := some (some "etablissement public") } ∧
    calculate_ttnb { is_exempt := true, exemption_reason := some "terrain agricole" } =
      .ok { base_amount := some 0, rate_percent := some 0, tax_amount := some 0,
            total_amount := some 0,
            exemption_reason := some (some "terrain agricole") } :=
  exemption_short_circuit _ _ _ rfl rfl

/-- C10: a reference price of exactly 0 (like `None`) is Python-falsy, so
`calculate_tib` takes the missing-reference-price branch and returns the
structured error, never a zero tax. -/
theorem tib_zero_ref_price_error (p : PropertySnapshot) (store : ServiceStore)
    (surface : ℚ) (hex : p.is_exempt = false) (hs : p.surface_couverte = some surface)
    (h : p.reference_price_per_m2 = some 0 ∨ p.reference_price_per_m2 = none) :
    calculate_tib p store =
      .ok { error := some ("Reference price per m2 required for category "
                            ++ toString (tibCategory surface)) } := by
  rcases h with h | h <;> simp [calculate_tib, hex, hs, h]

/-- Witness for C10: a non-exempt property with `reference_price_per_m2 = 0`
gets the missing-reference-price error result. -/
theorem tib_zero_ref_price_error_witness :
    calculate_tib
        { surface_couverte := some 150, reference_price_per_m2 := some 0 }
        (constStore 3) =
      .ok { error := some "Reference price per m2 required for category 2" } := by
  have h := tib_zero_ref_price_error
      { surface_couverte := some 150, reference_price_per_m2 := some 0 }
      (constStore 3) 150 rfl rfl (Or.inl rfl)
  have hc : tibCategory 150 = 2 := by norm_num [tibCategory]
  rw [h, hc]
  decide

/-- C5 (code evaluated at the failing input): `calculate_tib` has no guard
on non-positive `surface_couverte` — at surface −50 with a present reference
price it computes a negative tax and returns it without any `error` key —
while `calculate_ttnb` does reject surface −50 with a structured error. -/
theorem tib_missing_surface_guard :
    calculate_tib
        { surface_couverte := some (-50), reference_price_per_m2 := some 200 }
        (constStore 3) =
      .ok { base_amount := some (-200), rate_percent := some 10,
            tax_amount := some (-20), total_amount := some (-20),
            category := some 1, services_count := some 3 } ∧
    calculate_ttnb { urban_zone := some "faible_densite", surface := some (-50) } =
      .ok { error := some "Land surface must be greater than 0" } := by
  constructor
  · have hs : pyStrip "" = "" := by decide
    simp [calculate_tib, servicesCountOf, tibServiceRate, tibCategory, constStore, hs]
    norm_num [pyRound, roundHalfEven]
  · have hz : pyLower "faible_densite" = "faible_densite" := by decide
    simp [calculate_ttnb, zoneTariff, hz]

/-- Counterexample for C3: two calls to `calculate_tib` with identical input
snapshots but different municipal-service stores return different results —
the engine reads the service count from the store, it is not supplied by the
caller. -/
theorem tib_result_depends_on_store :
    calculate_tib
        { surface_couverte := some 150, reference_price_per_m2 := some 200 }
        (constStore 3) =
      .ok { base_amount := some 600, rate_percent := some 10,
            tax_amount := some 60, total_amount := some 60,
            category := some 2, services_count := some 3 } ∧
    calculate_tib
        { surface_couverte := some 150, reference_price_per_m2 := some 200 }
        (constStore 7) =
      .ok { base_amount := some 600, rate_percent := some 14,
            tax_amount := some 84, total_amount := some 84,
            category := some 2, services_count := some 7 } ∧
    calculate_tib
        { surface_couverte := some 150, reference_price_per_m2 := some 200 }
        (constStore 3) ≠
      calculate_tib
        { surface_couverte := some 150, reference_price_per_m2 := some 200 }
        (constStore 7) := by
  have hs : pyStrip "" = "" := by decide
  have h1 : calculate_tib
      { surface_couverte := some 150, reference_price_per_m2 := some 200 }
      (constStore 3) =
      .ok { base_amount := some 600, rate_percent := some 10,
            tax_amount := some 60, total_amount := some 60,
            category := some 2, services_count := some 3 } := by
    simp [calculate_tib, servicesCountOf, tibServiceRate, tibCategory, constStore, hs]
    norm_num [pyRound, roundHalfEven]
  have h2 : calculate_tib
      { surface_couverte := some 150, reference_price_per_m2 := some 200 }
      (constStore 7) =
      .ok { base_amount := some 600, rate_percent := some 14,
            tax_amount := some 84, total_amount := some 84,
            category := some 2, services_count := some 7 } := by
    simp [calculate_tib, servicesCountOf, tibServiceRate, tibCategory, constStore, hs]
    norm_num [pyRound, roundHalfEven]
  refine ⟨h1, h2, ?_⟩
  rw [h1, h2]
  intro h
  simp at h

/-- C3 (amended): the municipal-service store influences `calculate_tib`
only through the derived service count — identical snapshots whose stores
yield the same count give identical results. -/
theorem tib_determined_by_service_count (p : PropertySnapshot)
    (s1 s2 : ServiceStore) (h : servicesCountOf p s1 = servicesCountOf p s2) :
    calculate_tib p s1 = calculate_tib p s2 := by
  simp only [calculate_tib, h]

/-- Witness for C3 (amended): two different-looking stores with the same
effective count give the same TIB result. -/
theorem tib_determined_by_service_count_witness :
    calculate_tib
        { surface_couverte := some 150, reference_price_per_m2 := some 200 }
        (constStore 3) =
      calculate_tib
        { surface_couverte := some 150, reference_price_per_m2 := some 200 }
        { localityCount := fun _ _ => 9, communeCount := fun _ => 3 } :=
  tib_determined_by_service_count _ _ _ (by decide)

/-- C1: for every non-exempt property with a present (nonzero) reference
price, `calculate_tib` returns assiette `0.02 × reference_price × surface`,
`tax_amount = assiette × service_rate`, and `total_amount = tax_amount`
(the rate replaces, never adds to, the base); monetary outputs pass through
the engine's 3-decimal rounding policy. -/
theorem tib_formula (p : PropertySnapshot) (store : ServiceStore)
    (surface ref_price : ℚ) (hex : p.is_exempt = false)
    (hs : p.surface_couverte = some surface)
    (hr : p.reference_price_per_m2 = some ref_price) (hr0 : ref_price ≠ 0) :
    calculate_tib p store =
      .ok { base_amount := some (pyRound ((2/100) * (ref_price * surface)) 3),
            rate_percent := some (tibServiceRate (servicesCountOf p store) * 100),
            tax_amount := some (pyRound ((2/100) * (ref_price * surface) *
                tibServiceRate (servicesCountOf p store)) 3),
            total_amount := some (pyRound ((2/100) * (ref_price * surface) *
                tibServiceRate (servicesCountOf p store)) 3),
            category := some (tibCategory surface),
            services_count := some (servicesCountOf p store) } := by
  simp [calculate_tib, hex, hs, hr, hr0]

/-- Witness for C1: surface 150, reference price 200, 3 services give
assiette 600.000, rate 10 %, tax = total = 60.000. -/
theorem tib_formula_witness :
    calculate_tib
        { surface_couverte := some 150, reference_price_per_m2 := some 200 }
        (constStore 3) =
      .ok { base_amount := some 600, rate_percent := some 10,
            tax_amount := some 60, total_amount := some 60,
            category := some 2, services_count := some 3 } := by
  have hsc : servicesCountOf
      { surface_couverte := some 150, reference_price_per_m2 := some 200 }
      (constStore 3) = 3 := by decide
  have h := tib_formula
      { surface_couverte := some 150, reference_price_per_m2 := some 200 }
      (constStore 3) 150 200 rfl rfl rfl (by norm_num)
  rw [h, hsc]
  norm_num [tibServiceRate, tibCategory, pyRound, roundHalfEven]

/-- Counterexample for C2: at tax_year 0 (Python-falsy, treated as a missing
year) the code returns 0, although 2025-06-15 is long past Jan 1 of year
0 + 2 and the claimed formula yields 30351.25. -/
theorem penalty_tax_year_zero_counterexample :
    compute_late_payment_penalty_for_year 100 0 ⟨2025, 6, 15⟩ = 0 ∧
    pyRound (100 * (125/10000) * (((2025 - (0 + 2)) * 12 + (6 - 1) : ℤ) : ℚ)) 3 =
      30351 + 1/4 ∧
    (30351 + 1/4 : ℚ) ≠ 0 := by
  refine ⟨?_, ?_, by norm_num⟩
  · norm_num [compute_late_payment_penalty_for_year]
  · norm_num [pyRound, roundHalfEven]

/-- C2 (amended to positive tax years): for every positive tax year N the
penalty is 0 whenever the as-of date precedes Jan 1 of N+2, and otherwise is
`principal × 0.0125 × months_elapsed` (rounded to 3 decimals), where
`months_elapsed = 12·(year − (N+2)) + (month − 1)` is the number of whole
calendar months since Jan 1 of N+2, a partial month contributing zero. -/
theorem penalty_accrual (amt : ℚ) (y : ℤ) (d : PyDate) (hy : 0 < y) :
    (dateLt d ⟨y + 2, 1, 1⟩ = true →
      compute_late_payment_penalty_for_year amt y d = 0) ∧
    (dateLt d ⟨y + 2, 1, 1⟩ = false →
      compute_late_payment_penalty_for_year amt y d =
        pyRound (amt * (125/10000) *
          (((d.year - (y + 2)) * 12 + ((d.month : ℤ) - 1) : ℤ) : ℚ)) 3) := by
  have hy0 : y ≠ 0 := hy.ne'
  constructor
  · intro hlt
    simp [compute_late_payment_penalty_for_year, hy0, hlt]
  · intro hge
    have h1 : ¬(d.year < y + 2 ∨
        (d.year = y + 2 ∧ (d.month < 1 ∨ (d.month = 1 ∧ d.day < 1)))) := by
      simpa [dateLt] using hge
    push_neg at h1
    obtain ⟨h2, h3⟩ := h1
    have hmax : max 0 ((d.year - (y + 2)) * 12 + ((d.month : ℤ) - 1)) =
        (d.year - (y + 2)) * 12 + ((d.month : ℤ) - 1) := by
      rw [max_eq_right]
      by_cases hEq : d.year = y + 2
      · have h4 := h3 hEq
        push_neg at h4
        obtain ⟨h5, -⟩ := h4
        omega
      · omega
    simp [compute_late_payment_penalty_for_year, hy0, hge, hmax]

/-- Witness for C2: tax_year 2023, principal 100.000, as-of 2025-06-15 gives
penalty 6.250 (5 whole months from 2025-01-01); tax_year 2024 as of
2025-06-01 is still inside the grace window and gives 0. -/
theorem penalty_accrual_witness :
    compute_late_payment_penalty_for_year 100 2023 ⟨2025, 6, 15⟩ = 625/100 ∧
    compute_late_payment_penalty_for_year 100 2024 ⟨2025, 6, 1⟩ = 0 := by
  constructor
  · have h := (penalty_accrual 100 2023 ⟨2025, 6, 15⟩ (by norm_num)).2 (by decide)
    rw [h]
    norm_num [pyRound, roundHalfEven]
  · exact (penalty_accrual 100 2024 ⟨2025, 6, 1⟩ (by norm_num)).1 (by decide)

/-- Counterexample for C4: with no `surface_couverte` attribute on a
non-exempt snapshot, `calculate_tib` raises (the bare attribute access in
`float(property_obj.surface_couverte)`) instead of returning a result
value: the exception crosses the engine boundary. -/
theorem tib_exception_on_malformed_input :
    calculate_tib { is_exempt := false } (constStore 3) =
      .error "AttributeError: surface_couverte" := by
  simp [calculate_tib]

/-- C4 (amended): on snapshots whose attributes are present with the
expected types — in particular a numeric `surface_couverte` for TIB —
both calculators return a result dict through the ordinary return channel
(`Except.ok`), never an exception; `calculate_ttnb` does so for every typed
snapshot since all its attribute reads have defaults. -/
theorem calculators_always_return_result_dicts :
    (∀ (p : PropertySnapshot) (store : ServiceStore) (surface : ℚ),
      p.surface_couverte = some surface →
      ∃ d : TaxDict, calculate_tib p store = .ok d) ∧
    (∀ l : LandSnapshot, ∃ d : TaxDict, calculate_ttnb l = .ok d) := by
  constructor
  · intro p store surface hs
    by_cases he : p.is_exempt
    · exact ⟨_, by simp [calculate_tib, he]; rfl⟩
    · by_cases hr : p.reference_price_per_m2 = none ∨ p.reference_price_per_m2 = some 0
      · exact ⟨_, by simp [calculate_tib, he, hs, hr]; rfl⟩
      · exact ⟨_, by simp [calculate_tib, he, hs, hr]; rfl⟩
  · intro l
    by_cases he : l.is_exempt
    · exact ⟨_, by simp [calculate_ttnb, he]; rfl⟩
    · by_cases hz : l.urban_zone = none ∨ l.urban_zone = some ""
      · exact ⟨_, by simp [calculate_ttnb, he, hz]; rfl⟩
      · rcases hzt : zoneTariff (pyLower (l.urban_zone.getD "")) with _ | t
        · exact ⟨_, by simp [calculate_ttnb, he, hz, hzt]; rfl⟩
        · by_cases hsl : l.surface.getD 0 ≤ 0
          · exact ⟨_, by simp [calculate_ttnb, he, hz, hzt, hsl]; rfl⟩
          · exact ⟨_, by simp [calculate_ttnb, he, hz, hzt, hsl]; rfl⟩

/-- Witness for C4 (amended): a property snapshot with numeric surface (and
whatever else missing) and an arbitrary land snapshot both produce `.ok`
dicts. -/
theorem calculators_always_return_result_dicts_witness :
    (∃ d : TaxDict,
      calculate_tib { surface_couverte := some 150 } (constStore 3) = .ok d) ∧
    (∃ d : TaxDict,
      calculate_ttnb { urban_zone := some "unknown", surface := some 100 } = .ok d) :=
  ⟨calculators_always_return_result_dicts.1 _ (constStore 3) 150 rfl,
   calculators_always_return_result_dicts.2 _⟩

/-- C6: the TTNB tariff table is exactly haute_densite 1.200,
densite_moyenne 0.800, faible_densite 0.400, peripherique 0.200 TND/m², and
for every non-exempt land with a valid zone and positive surface the result
is `tax_amount = total_amount = surface × tariff` (3-decimal rounded) with
`rate_percent = 0`, using no service count and no price per m². -/
theorem ttnb_formula :
    (zoneTariff "haute_densite" = some (12/10) ∧
     zoneTariff "densite_moyenne" = some (8/10) ∧
     zoneTariff "faible_densite" = some (4/10) ∧
     zoneTariff "peripherique" = some (2/10)) ∧
    ∀ (l : LandSnapshot) (z : String) (surface t : ℚ),
      l.is_exempt = false → l.urban_zone = some z → z ∈ validZones →
      zoneTariff z = some t → l.surface = some surface → 0 < surface →
      calculate_ttnb l =
        .ok { base_amount := some (pyRound (surface * t) 3),
              rate_percent := some 0,
              tax_amount := some (pyRound (surface * t) 3),
              total_amount := some (pyRound (surface * t) 3),
              zone := some z, tariff_per_m2 := some t,
              surface_m2 := some surface } := by
  refine ⟨⟨by simp [zoneTariff], by simp [zoneTariff], by simp [zoneTariff],
            by simp [zoneTariff]⟩, ?_⟩
  intro l z surface t hex hz hzv hzt hs hpos
  simp only [validZones, List.mem_cons, List.not_mem_nil, or_false] at hzv
  have hlow : pyLower z = z := by
    rcases hzv with rfl | rfl | rfl | rfl <;> decide
  have hne : z ≠ "" := by
    rcases hzv with rfl | rfl | rfl | rfl <;> decide
  simp [calculate_ttnb, hex, hz, hne, hlow, hzt, hs, hpos.not_le]

/-- Witness for C6: surface 5000 in zone faible_densite (tariff 0.400)
yields tax_amount = total_amount = 2000.000. -/
theorem ttnb_formula_witness :
    calculate_ttnb { urban_zone := some "faible_densite", surface := some 5000 } =
      .ok { base_amount := some 2000, rate_percent := some 0,
            tax_amount := some 2000, total_amount := some 2000,
            zone := some "faible_densite", tariff_per_m2 := some (4/10),
            surface_m2 := some 5000 } := by
  have h := ttnb_formula.2
      { urban_zone := some "faible_densite", surface := some 5000 }
      "faible_densite" 5000 (4/10) rfl rfl (by decide) (by simp [zoneTariff])
      rfl (by norm_num)
  rw [h]
  norm_num [pyRound, roundHalfEven]

/-- C7: the TIB service rate is banded — counts ≤ 2 give 8 %, 3–4 give
10 %, 5–6 give 12 %, ≥ 7 give 14 % — and the returned `rate_percent` is
100 × the applied rate. -/
theorem tib_service_rate_bands :
    (∀ n : ℕ,
      (n ≤ 2 → tibServiceRate n = 8/100) ∧
      (3 ≤ n → n ≤ 4 → tibServiceRate n = 10/100) ∧
      (5 ≤ n → n ≤ 6 → tibServiceRate n = 12/100) ∧
      (7 ≤ n → tibServiceRate n = 14/100)) ∧
    ∀ (p : PropertySnapshot) (store : ServiceStore) (surface ref_price : ℚ),
      p.is_exempt = false → p.surface_couverte = some surface →
      p.reference_price_per_m2 = some ref_price → ref_price ≠ 0 →
      ∃ d : TaxDict, calculate_tib p store = .ok d ∧
        d.rate_percent = some (tibServiceRate (servicesCountOf p store) * 100) := by
  constructor
  · intro n
    refine ⟨fun h => ?_, fun h1 h2 => ?_, fun h1 h2 => ?_, fun h => ?_⟩ <;>
      (unfold tibServiceRate; split_ifs <;> first | rfl | omega)
  · intro p store surface ref_price hex hs hr hr0
    have h : calculate_tib p store =
        .ok { base_amount := some (pyRound ((2/100) * (ref_price * surface)) 3),
              rate_percent := some (tibServiceRate (servicesCountOf p store) * 100),
              tax_amount := some (pyRound ((2/100) * (ref_price * surface) *
                  tibServiceRate (servicesCountOf p store)) 3),
              total_amount := some (pyRound ((2/100) * (ref_price * surface) *
                  tibServiceRate (servicesCountOf p store)) 3),
              category := some (tibCategory surface),
              services_count := some (servicesCountOf p store) } := by
      simp [calculate_tib, hex, hs, hr, hr0]
    exact ⟨_, h, rfl⟩

/-- Witness for C7: a count of 3 falls in the 3–4 band (10 %), and the
example property's result reports `rate_percent` = 100 × that rate. -/
theorem tib_service_rate_bands_witness :
    tibServiceRate 3 = 10/100 ∧
    ∃ d : TaxDict,
      calculate_tib
          { surface_couverte := some 150, reference_price_per_m2 := some 200 }
          (constStore 3) = .ok d ∧
      d.rate_percent = some (tibServiceRate (servicesCountOf
          { surface_couverte := some 150, reference_price_per_m2 := some 200 }
          (constStore 3)) * 100) :=
  ⟨(tib_service_rate_bands.1 3).2.1 (by norm_num) (by norm_num),
   tib_service_rate_bands.2 _ (constStore 3) 150 200 rfl rfl rfl (by norm_num)⟩

/-- Counterexample for C9: "FAIBLE_DENSITE" is not one of the 4 valid zone
keys, yet `calculate_ttnb` lowercases it and computes a tax with no error
key — the zone check is case-insensitive, not literal key membership. -/
theorem ttnb_unlisted_zone_accepted :
    ("FAIBLE_DENSITE" ∈ validZones ↔ False) ∧
    calculate_ttnb { urban_zone := some "FAIBLE_DENSITE", surface := some 5000 } =
      .ok { base_amount := some 2000, rate_percent := some 0,
            tax_amount := some 2000, total_amount := some 2000,
            zone := some "FAIBLE_DENSITE", tariff_per_m2 := some (4/10),
            surface_m2 := some 5000 } := by
  constructor
  · decide
  · have hz : pyLower "FAIBLE_DENSITE" = "faible_densite" := by decide
    simp [calculate_ttnb, zoneTariff, hz]
    norm_num [pyRound, roundHalfEven]

/-- C9 (amended): for every non-exempt land whose `urban_zone` is missing or
empty, or whose lowercasing is not one of the 4 valid keys, `calculate_ttnb`
returns a structured result with an `error` key, enumerating the valid
zones, and with no `tax_amount`. -/
theorem ttnb_invalid_zone_error :
    (∀ l : LandSnapshot, l.is_exempt = false →
      (l.urban_zone = none ∨ l.urban_zone = some "") →
      ∃ d : TaxDict, calculate_ttnb l = .ok d ∧ d.error ≠ none ∧
        d.valid_zones = some validZones ∧ d.tax_amount = none) ∧
    (∀ (l : LandSnapshot) (z : String), l.is_exempt = false →
      l.urban_zone = some z → zoneTariff (pyLower z) = none →
      ∃ d : TaxDict, calculate_ttnb l = .ok d ∧ d.error ≠ none ∧
        d.valid_zones = some validZones ∧ d.tax_amount = none) := by
  constructor
  · intro l hex h
    have hres : calculate_ttnb l =
        .ok { error := some "Urban zone classification required",
              valid_zones := some validZones,
              message := some "TTNB cannot be calculated without urban zone classification per Decret 2017-396" } := by
      simp [calculate_ttnb, hex, h]
    exact ⟨_, hres, by simp, rfl, rfl⟩
  · intro l z hex hz hzt
    by_cases h0 : z = ""
    · subst h0
      have hres : calculate_ttnb l =
          .ok { error := some "Urban zone classification required",
                valid_zones := some validZones,
                message := some "TTNB cannot be calculated without urban zone classification per Decret 2017-396" } := by
        simp [calculate_ttnb, hex, hz]
      exact ⟨_, hres, by simp, rfl, rfl⟩
    · have hres : calculate_ttnb l =
          .ok { error := some ("Invalid urban zone: " ++ z),
                valid_zones := some validZones } := by
        simp [calculate_ttnb, hex, hz, h0, hzt]
      exact ⟨_, hres, by simp, rfl, rfl⟩

/-- Witness for C9 (amended): urban_zone "unknown_zone" gives a structured
result with an `error` key, the valid-zone list, and no `tax_amount`. -/
theorem ttnb_invalid_zone_error_witness :
    ∃ d : TaxDict,
      calculate_ttnb { urban_zone := some "unknown_zone", surface := some 5000 } =
        .ok d ∧
      d.error ≠ none ∧ d.valid_zones = some validZones ∧ d.tax_amount = none :=
  ttnb_invalid_zone_error.2 _ "unknown_zone" rfl rfl (by decide)
